import Mathlib

/-!
Shallow embedding of the weather-proxy core (cache-backed weather lookup,
circuit breaker, cache warmer) from `app/services/weather.py`,
`app/services/cache.py`, `app/services/cache_warmer.py`, `app/core/config.py`,
`app/models/weather.py` and the `/weather` route handler in `app/main.py`.

External collaborators (the geocoding and weather HTTP endpoints and the Redis
backend) are modelled as per-call response oracles; machine floats from the
JSON payloads are modelled as rationals; times are naturals (seconds).
-/

namespace WeatherProxy

/-- Python `str.lower()` restricted to the ASCII case mapping of `Char.toLower`. -/
def pyLower (s : String) : String :=
  String.mk (s.data.map Char.toLower)

/-- Python `str.strip()`: drop leading and trailing whitespace characters. -/
def pyStrip (s : String) : String :=
  String.mk (((s.data.dropWhile Char.isWhitespace).reverse.dropWhile
    Char.isWhitespace).reverse)

/-- Python `needle in hay` on strings: some drop of `hay` starts with `needle`. -/
def containsSub (needle hay : String) : Bool :=
  (List.range (hay.data.length + 1)).any fun i =>
    needle.data.isPrefixOf (hay.data.drop i)

/-- `app/models/weather.py` `WeatherData`: the response model. -/
structure WeatherData where
  city : String
  temperature : ℚ
  wind_speed : ℚ
  weather_code : Int
  cached : Bool
deriving DecidableEq, Repr

/-- `result.model_dump(exclude={"cached"})`: what `get_weather` writes to the
cache (`app/services/weather.py` line 169). -/
structure StoredWeather where
  city : String
  temperature : ℚ
  wind_speed : ℚ
  weather_code : Int
deriving DecidableEq, Repr

def storedOf (r : WeatherData) : StoredWeather :=
  ⟨r.city, r.temperature, r.wind_speed, r.weather_code⟩

/-- The `current_weather` JSON object of the weather endpoint; each field may be
absent (`dict.get` with a default is used on every access). -/
structure CurrentWeather where
  temperature : Option ℚ
  windspeed : Option ℚ
  weathercode : Option Int
deriving DecidableEq, Repr

/-- The weather endpoint's JSON payload; the `current_weather` object itself
may be absent (`weather_data.get("current_weather", {})`). -/
structure WeatherPayload where
  current_weather : Option CurrentWeather
deriving DecidableEq, Repr

/-- `weather_data.get("current_weather", {})` (`weather.py` line 157). -/
def payloadCurrent (p : WeatherPayload) : CurrentWeather :=
  p.current_weather.getD ⟨none, none, none⟩

/-- Exception classes raised inside `WeatherService.get_weather`:
`WeatherServiceError` (`weather.py` lines 24-27) carrying its message, and
pybreaker's `CircuitBreakerError`. -/
inductive PyErr
  | weatherServiceError (msg : String)
  | circuitBreakerError
deriving DecidableEq, Repr

/-- The Python class of an exception value, as `type(e).__name__`. -/
def errClass : PyErr → String
  | .weatherServiceError _ => "WeatherServiceError"
  | .circuitBreakerError => "CircuitBreakerError"

instance {ε α : Type} [DecidableEq ε] [DecidableEq α] : DecidableEq (Except ε α) :=
  fun x y => by
    cases x <;> cases y <;>
      first
        | exact .isFalse (by intro h; exact Except.noConfusion h)
        | (rename_i a b
           exact if h : a = b then .isTrue (by rw [h])
             else .isFalse (by intro hc; injection hc; contradiction))

/-- Outcome of one HTTP call: an `httpx.HTTPError` or a decoded JSON payload. -/
inductive HttpResp (α : Type)
  | httpError (msg : String)
  | ok (payload : α)
deriving DecidableEq, Repr

/-- Geocoding payload: the `results` list, each entry giving (latitude,
longitude); an absent `results` key is the empty list. -/
abbrev GeoResp := HttpResp (List (ℚ × ℚ))

abbrev WeatherResp := HttpResp WeatherPayload

/-! ## Cache service (`app/services/cache.py`)

The Redis backend's behaviour on a single call is an oracle value; the
service-level `get`/`set` translate it exactly as the `try/except` blocks do. -/

/-- What the Redis backend does on one `get`: client not connected, a
`RedisError`, a stored value that fails `json.loads`, a miss, or a hit. -/
inductive CacheGetResp
  | notConnected
  | backendError
  | malformed
  | missing
  | hit (v : StoredWeather)
deriving DecidableEq, Repr

/-- `CacheService.get` (`cache.py` lines 45-67): returns the decoded value on a
hit and `None` in every other case — backend errors and malformed payloads are
caught and absorbed. -/
def cacheGet : CacheGetResp → Option StoredWeather
  | .hit v => some v
  | .notConnected => none
  | .backendError => none
  | .malformed => none
  | .missing => none

/-- What the Redis backend does on one `setex`. -/
inductive CacheSetResp
  | notConnected
  | backendError
  | stored
deriving DecidableEq, Repr

/-- `CacheService.set` (`cache.py` lines 69-89): returns a success boolean and
never raises — `RedisError`/`TypeError` are caught and give `False`. -/
def cacheSet : CacheSetResp → Bool
  | .stored => true
  | .notConnected => false
  | .backendError => false

/-! ## Circuit breaker

Modelled from the spec: the breaker implementation is the third-party
`pybreaker.CircuitBreaker` (not under `src/`); spec section 4.2 gives its state
machine — closed counts consecutive failures and opens at `fail_max`; open
rejects calls until `reset_timeout` seconds have elapsed since opening, then
admits one half-open trial whose success closes (counter reset) and whose
failure re-opens (timer restarted). -/

inductive BreakerState
  | closed
  | opened
deriving DecidableEq, Repr

structure Breaker where
  failMax : Nat
  resetTimeout : Nat
  state : BreakerState
  failCount : Nat
  openedAt : Nat
deriving DecidableEq, Repr

/-- Modelled from the spec: whether a call is admitted — always while closed;
while open only once `reset_timeout` has elapsed (the half-open trial). -/
def breakerAllows (b : Breaker) (now : Nat) : Bool :=
  match b.state with
  | .closed => true
  | .opened => decide (b.openedAt + b.resetTimeout ≤ now)

/-- Modelled from the spec: state update after an admitted call. Success closes
the breaker and resets the counter; failure while closed increments the counter
and opens at `fail_max`; failure of the half-open trial re-opens, restarting
the timer. -/
def breakerRecord (b : Breaker) (now : Nat) (success : Bool) : Breaker :=
  if success then
    { b with state := .closed, failCount := 0 }
  else
    match b.state with
    | .closed =>
        if b.failMax ≤ b.failCount + 1 then
          { b with state := .opened, failCount := b.failCount + 1, openedAt := now }
        else
          { b with failCount := b.failCount + 1 }
    | .opened => { b with openedAt := now }

/-- The breaker fresh out of `CircuitBreaker(fail_max=m, reset_timeout=rt)`
(`weather.py` lines 17-21). -/
def initBreaker (m rt : Nat) : Breaker :=
  ⟨m, rt, .closed, 0, 0⟩

/-- `WeatherService._fetch_weather_data` (`weather.py` lines 90-123) under the
`@weather_breaker` decorator: a rejected call raises `CircuitBreakerError`
without touching the upstream; an admitted call hits the upstream, an
`httpx.HTTPError` becoming `WeatherServiceError("Weather API failed: ...")`
and counting as a breaker failure. -/
def fetch_weather_data (b : Breaker) (now : Nat) (resp : WeatherResp) :
    Except PyErr WeatherPayload × Breaker :=
  if breakerAllows b now then
    match resp with
    | .ok p => (.ok p, breakerRecord b now true)
    | .httpError m =>
        (.error (.weatherServiceError ("Weather API failed: " ++ m)),
         breakerRecord b now false)
  else
    (.error .circuitBreakerError, b)

/-- `WeatherService._geocode_city` (`weather.py` lines 60-88): an HTTP error
becomes `WeatherServiceError("Geocoding failed: ...")`, an empty `results`
list becomes `WeatherServiceError("City '<city>' not found")`, otherwise the
first result's coordinates are used. -/
def geocode_city (city : String) (resp : GeoResp) : Except PyErr (ℚ × ℚ) :=
  match resp with
  | .httpError m => .error (.weatherServiceError ("Geocoding failed: " ++ m))
  | .ok [] => .error (.weatherServiceError ("City '" ++ city ++ "' not found"))
  | .ok (c :: _) => .ok c

/-- `WeatherService._generate_cache_key` (`weather.py` lines 48-58):
`"weather:" + md5(city.lower().strip()).hexdigest()`. -/
def hexChar (n : Nat) : Char :=
  if n < 10 then Char.ofNat (48 + n) else Char.ofNat (87 + n)

def hexDigits : Nat → Nat → List Char
  | _, 0 => []
  | n, w + 1 => hexDigits (n / 16) w ++ [hexChar (n % 16)]

/-- Modelled from the spec: the source hashes with `hashlib.md5` (Python
standard library, not under `src/`); the spec requires only "any deterministic
fixed-length digest" ("exact hash algorithm is not a compatibility
requirement"), so a 128-bit fold rendered as 32 hex characters stands in for
the MD5 hexdigest. -/
def md5HexDigest (s : String) : String :=
  String.mk (hexDigits (s.data.foldl (fun a c => (a * 131 + c.toNat) % 2 ^ 128) 5381) 32)

def generate_cache_key (city : String) : String :=
  "weather:" ++ md5HexDigest (pyStrip (pyLower city))

/-! ## `WeatherService.get_weather` (`weather.py` lines 125-183)

One call's interactions with the outside world are an environment of per-call
responses; the call returns the result (`WeatherData` or the raised error), the
breaker state after the call, and the trace of backend/upstream calls made. -/

inductive NetEvent
  | cacheGetCall
  | geoCall
  | weatherCall
  | cacheSetCall
deriving DecidableEq, Repr

structure LookupEnv where
  now : Nat
  cacheGetResp : CacheGetResp
  geoResp : GeoResp
  weatherResp : WeatherResp
  cacheSetResp : CacheSetResp
deriving Repr

structure LookupOutcome where
  result : Except PyErr WeatherData
  breaker : Breaker
  events : List NetEvent
deriving DecidableEq, Repr

/-- The fresh record built on a successful fetch (`weather.py` lines 156-166):
missing payload fields default to `0.0` / `0.0` / `0`, `cached=False`. -/
def freshRecord (city : String) (p : WeatherPayload) : WeatherData :=
  ⟨city, (payloadCurrent p).temperature.getD 0, (payloadCurrent p).windspeed.getD 0,
   (payloadCurrent p).weathercode.getD 0, false⟩

/-- `WeatherService.get_weather`: cache lookup, then on a miss geocoding, then
the breaker-guarded fetch, then a best-effort cache write. `CircuitBreakerError`
is caught and re-raised as
`WeatherServiceError("Weather service temporarily unavailable (circuit breaker open)")`;
`WeatherServiceError` propagates; the cache-write success boolean is ignored. -/
def get_weather (env : LookupEnv) (b : Breaker) (city : String) : LookupOutcome :=
  match cacheGet env.cacheGetResp with
  | some v =>
      { result := .ok ⟨v.city, v.temperature, v.wind_speed, v.weather_code, true⟩,
        breaker := b, events := [.cacheGetCall] }
  | none =>
      match geocode_city city env.geoResp with
      | .error e => { result := .error e, breaker := b, events := [.cacheGetCall, .geoCall] }
      | .ok _ =>
          match fetch_weather_data b env.now env.weatherResp with
          | (.error .circuitBreakerError, b1) =>
              { result := .error (.weatherServiceError
                  "Weather service temporarily unavailable (circuit breaker open)"),
                breaker := b1, events := [.cacheGetCall, .geoCall] }
          | (.error e, b1) =>
              { result := .error e, breaker := b1,
                events := [.cacheGetCall, .geoCall, .weatherCall] }
          | (.ok p, b1) =>
              let r := freshRecord city p
              let _setOk := cacheSet env.cacheSetResp
              { result := .ok r, breaker := b1,
                events := [.cacheGetCall, .geoCall, .weatherCall, .cacheSetCall] }

/-! ## The `/weather` route handler (`app/main.py` lines 255-288)

Rejects an empty/whitespace-only `city` with HTTP 400 before calling the
service; maps a `WeatherServiceError` whose lowercased message contains
"not found" to 400 and any other to 503; an uncaught exception would reach the
global handler as 500. -/

inductive RouteResult
  | ok (w : WeatherData)
  | httpError (status : Nat) (detail : String)
deriving DecidableEq, Repr

def route_get_weather (env : LookupEnv) (b : Breaker) (city : String) :
    RouteResult × Breaker × List NetEvent :=
  if pyStrip city = "" then
    (.httpError 400 "City parameter is required", b, [])
  else
    let out := get_weather env b city
    match out.result with
    | .ok w => (.ok w, out.breaker, out.events)
    | .error (.weatherServiceError msg) =>
        if containsSub "not found" (pyLower msg) then
          (.httpError 400 msg, out.breaker, out.events)
        else
          (.httpError 503 msg, out.breaker, out.events)
    | .error .circuitBreakerError =>
        (.httpError 500 "Internal server error", out.breaker, out.events)

/-! ## Redis store with TTL (for the idempotence claim)

Modelled from the spec: the Redis backend itself is external; `SETEX key ttl`
stores the value with expiry `now + ttl`, and a read strictly before the
expiry returns it ("expires automatically after TTL"). -/

abbrev RedisStore := List (String × StoredWeather × Nat)

def redisGet (st : RedisStore) (k : String) (now : Nat) : CacheGetResp :=
  match st.lookup k with
  | some (v, exp) => if now < exp then .hit v else .missing
  | none => .missing

def redisSetex (st : RedisStore) (k : String) (v : StoredWeather) (now ttl : Nat) :
    RedisStore :=
  (k, v, now + ttl) :: st

/-- Per-call upstream behaviour for a store-level lookup; `cacheHealthy` says
whether the Redis backend is reachable for this call's get and set. -/
structure NetEnv where
  now : Nat
  geoResp : GeoResp
  weatherResp : WeatherResp
  cacheHealthy : Bool
deriving Repr

/-- `get_weather` run against an actual TTL store: the cache responses are
produced from the store, and a successful fresh result is written back
(`model_dump(exclude={"cached"})`) when the backend is reachable. -/
def get_weather_store (env : NetEnv) (ttl : Nat) (st : RedisStore) (b : Breaker)
    (city : String) : LookupOutcome × RedisStore :=
  let key := generate_cache_key city
  let out := get_weather
    { now := env.now
      cacheGetResp := if env.cacheHealthy then redisGet st key env.now else .backendError
      geoResp := env.geoResp
      weatherResp := env.weatherResp
      cacheSetResp := if env.cacheHealthy then .stored else .backendError }
    b city
  match out.result with
  | .ok r =>
      if !r.cached && env.cacheHealthy then
        (out, redisSetex st key (storedOf r) env.now ttl)
      else
        (out, st)
  | .error _ => (out, st)

/-! ## Cache warmer (`app/services/cache_warmer.py`) -/

/-- `warm_city` (lines 26-47): the per-city lookup outcome folded to a boolean —
`True` on success, `False` when `WeatherServiceError` or any other exception is
caught. -/
def warm_city (r : Except PyErr WeatherData) : Bool :=
  match r with
  | .ok _ => true
  | .error _ => false

structure WarmingResult where
  success : Nat
  failed : Nat
deriving DecidableEq, Repr

/-- `settings.popular_cities` default (`app/core/config.py` lines 40-43). -/
def popular_cities : List String :=
  ["Netanya", "Raanana", "Paris", "London", "New York", "Tokyo", "Berlin",
   "Sydney", "Moscow", "Dubai", "Singapore", "Los Angeles"]

/-- `warm_cache` (lines 51-86): returns `{0, 0}` when warming is disabled;
`cities_to_warm = cities or settings.popular_cities` (Python truthiness: `None`
and the empty list both fall back); each city's lookup outcome is counted,
`failed = len(results) - success`. The per-city lookup outcomes are supplied as
a function, each call being independent. -/
def warm_cache (enabled : Bool) (popular : List String) (cities : Option (List String))
    (lookup : String → Except PyErr WeatherData) : WarmingResult :=
  if !enabled then
    ⟨0, 0⟩
  else
    let citiesToWarm :=
      match cities with
      | none => popular
      | some l => if l.isEmpty then popular else l
    let results := citiesToWarm.map fun c => warm_city (lookup c)
    let successCount := results.count true
    ⟨successCount, results.length - successCount⟩

/-- `fail_max` consecutive failed fetch calls, each at a given time with a given
HTTP error message, folded through the breaker-guarded fetch. -/
def failFold (b : Breaker) (calls : List (Nat × String)) : Breaker :=
  calls.foldl (fun cur c => (fetch_weather_data cur c.1 (.httpError c.2)).2) b

/-! ## Helper lemmas -/

lemma hexDigits_length (w : Nat) : ∀ n, (hexDigits n w).length = w := by
  induction w with
  | zero => intro n; rfl
  | succ k ih => intro n; simp [hexDigits, ih]

lemma pyStrip_whitespace (s : String) (h : ∀ c ∈ s.data, c.isWhitespace) :
    pyStrip s = "" := by
  have hnil : s.data.dropWhile Char.isWhitespace = [] :=
    List.dropWhile_eq_nil_iff.mpr h
  unfold pyStrip
  rw [hnil]
  rfl

lemma get_weather_hit (env : LookupEnv) (b : Breaker) (city : String) (v : StoredWeather)
    (h : cacheGet env.cacheGetResp = some v) :
    get_weather env b city =
      ⟨.ok ⟨v.city, v.temperature, v.wind_speed, v.weather_code, true⟩, b, [.cacheGetCall]⟩ := by
  unfold get_weather
  rw [h]

lemma get_weather_notFound (env : LookupEnv) (b : Breaker) (city : String)
    (h1 : cacheGet env.cacheGetResp = none) (h2 : env.geoResp = .ok []) :
    get_weather env b city =
      ⟨.error (.weatherServiceError ("City '" ++ city ++ "' not found")), b,
       [.cacheGetCall, .geoCall]⟩ := by
  unfold get_weather
  rw [h1, h2]
  rfl

lemma get_weather_rejected (env : LookupEnv) (b : Breaker) (city : String)
    (h1 : cacheGet env.cacheGetResp = none)
    (h2 : ∃ c rest, env.geoResp = .ok (c :: rest))
    (hb : b.state = .opened) (ht : env.now < b.openedAt + b.resetTimeout) :
    get_weather env b city =
      ⟨.error (.weatherServiceError
        "Weather service temporarily unavailable (circuit breaker open)"), b,
       [.cacheGetCall, .geoCall]⟩ := by
  obtain ⟨c, rest, h2⟩ := h2
  have hallow : breakerAllows b env.now = false := by
    unfold breakerAllows
    rw [hb]
    simp
    omega
  unfold get_weather fetch_weather_data
  rw [h1, h2, hallow]
  rfl

lemma get_weather_fresh (env : LookupEnv) (b : Breaker) (city : String)
    (c : ℚ × ℚ) (rest : List (ℚ × ℚ)) (p : WeatherPayload)
    (h1 : cacheGet env.cacheGetResp = none) (h2 : env.geoResp = .ok (c :: rest))
    (hp : env.weatherResp = .ok p) (hb : b.state = .closed) :
    get_weather env b city =
      ⟨.ok (freshRecord city p), { b with state := .closed, failCount := 0 },
       [.cacheGetCall, .geoCall, .weatherCall, .cacheSetCall]⟩ := by
  have hallow : breakerAllows b env.now = true := by
    unfold breakerAllows
    rw [hb]
  unfold get_weather fetch_weather_data breakerRecord
  rw [h1, h2, hp, hallow]
  rfl

lemma failFold_opened (calls : List (Nat × String)) : ∀ b : Breaker, b.state = .opened →
    (failFold b calls).state = .opened := by
  induction calls with
  | nil => intro b h; exact h
  | cons c t ih =>
      intro b h
      have hstep : failFold b (c :: t) =
          failFold ((fetch_weather_data b c.1 (.httpError c.2)).2) t := by
        simp [failFold]
      rw [hstep]
      apply ih
      by_cases ha : breakerAllows b c.1 = true
      · simp [fetch_weather_data, ha, breakerRecord, h]
      · simp only [Bool.not_eq_true] at ha
        simp [fetch_weather_data, ha, h]

lemma failFold_opens (calls : List (Nat × String)) : ∀ b : Breaker, b.state = .closed →
    calls ≠ [] → b.failMax ≤ b.failCount + calls.length →
    (failFold b calls).state = .opened := by
  induction calls with
  | nil => intro b _ hne _; exact absurd rfl hne
  | cons c t ih =>
      intro b hcl _ hle
      have hallow : breakerAllows b c.1 = true := by
        unfold breakerAllows; rw [hcl]
      have hstep : failFold b (c :: t) = failFold (breakerRecord b c.1 false) t := by
        simp [failFold, fetch_weather_data, hallow]
      rw [hstep]
      by_cases hmax : b.failMax ≤ b.failCount + 1
      · apply failFold_opened
        simp [breakerRecord, hcl, hmax]
      · have hb1 : breakerRecord b c.1 false = { b with failCount := b.failCount + 1 } := by
          simp [breakerRecord, hcl, hmax]
        rw [hb1]
        simp only [List.length_cons] at hle
        have hne' : t ≠ [] := by
          intro h0
          subst h0
          simp at hle
          omega
        exact ih _ (by simp [hcl]) hne' (by simp; omega)

lemma count_true_add_countP_not {α : Type} (f : α → Bool) :
    ∀ l : List α, (l.map f).count true + l.countP (fun c => !(f c)) = l.length := by
  intro l
  induction l with
  | nil => simp
  | cons a t ih =>
      cases hfa : f a <;>
        simp [List.count_cons, List.countP_cons, hfa] <;>
        omega

lemma store_hit (env : NetEnv) (ttl : Nat) (st : RedisStore) (b : Breaker) (city : String)
    (v : StoredWeather) (hh : env.cacheHealthy = true)
    (hhit : redisGet st (generate_cache_key city) env.now = .hit v) :
    get_weather_store env ttl st b city =
      (⟨.ok ⟨v.city, v.temperature, v.wind_speed, v.weather_code, true⟩, b, [.cacheGetCall]⟩,
       st) := by
  unfold get_weather_store
  rw [hh]
  simp only [if_true]
  rw [get_weather_hit _ _ _ v (by rw [hhit]; rfl)]
  rfl

lemma store_fresh (env : NetEnv) (ttl : Nat) (st : RedisStore) (b : Breaker) (city : String)
    (c : ℚ × ℚ) (rest : List (ℚ × ℚ)) (p : WeatherPayload)
    (hgeo : env.geoResp = .ok (c :: rest)) (hw : env.weatherResp = .ok p)
    (hb : b.state = .closed) (hh : env.cacheHealthy = true)
    (hmiss : redisGet st (generate_cache_key city) env.now = .missing) :
    get_weather_store env ttl st b city =
      (⟨.ok (freshRecord city p), { b with state := .closed, failCount := 0 },
        [.cacheGetCall, .geoCall, .weatherCall, .cacheSetCall]⟩,
       (generate_cache_key city, storedOf (freshRecord city p), env.now + ttl) :: st) := by
  unfold get_weather_store
  rw [hh]
  simp only [if_true]
  rw [get_weather_fresh _ _ _ c rest p (by rw [hmiss]; rfl) hgeo hw hb]
  rfl

/-! ## Claims -/

/-- C1: for every city string that is empty or whitespace-only, the `/weather`
handler `get_weather` rejects it with the HTTP 400 validation error before the
service runs: the breaker is untouched and no cache, geocoding or weather-fetch
call is made (empty event trace). -/
theorem claim_C1 (env : LookupEnv) (b : Breaker) (city : String)
    (h : ∀ c ∈ city.data, c.isWhitespace) :
    route_get_weather env b city =
      (.httpError 400 "City parameter is required", b, []) := by
  unfold route_get_weather
  rw [pyStrip_whitespace city h]
  rfl

theorem claim_C1_witness :
    route_get_weather ⟨0, .missing, .ok [], .httpError "x", .stored⟩ (initBreaker 5 60) " " =
      (.httpError 400 "City parameter is required", initBreaker 5 60, []) :=
  claim_C1 _ _ _ (by decide)

/-- C7: when the cache misses and geocoding succeeds with an empty results list,
`get_weather` fails with the not-found `WeatherServiceError` and the weather
endpoint is never called. -/
theorem claim_C7 (env : LookupEnv) (b : Breaker) (city : String)
    (h1 : cacheGet env.cacheGetResp = none) (h2 : env.geoResp = .ok []) :
    (get_weather env b city).result =
      .error (.weatherServiceError ("City '" ++ city ++ "' not found")) ∧
    NetEvent.weatherCall ∉ (get_weather env b city).events := by
  rw [get_weather_notFound env b city h1 h2]
  exact ⟨rfl, by simp⟩

theorem claim_C7_witness :
    (get_weather ⟨0, .missing, .ok [], .httpError "x", .stored⟩ (initBreaker 5 60)
        "Atlantis").result =
      .error (.weatherServiceError "City 'Atlantis' not found") ∧
    NetEvent.weatherCall ∉
      (get_weather ⟨0, .missing, .ok [], .httpError "x", .stored⟩ (initBreaker 5 60)
        "Atlantis").events :=
  claim_C7 _ _ "Atlantis" rfl rfl

/-- C3 counterexample: the not-found failure and the breaker-open failure are
raised as the SAME Python exception class `WeatherServiceError`, so the caller
cannot distinguish them by class alone. -/
theorem claim_C3_counterexample :
    (get_weather ⟨0, .missing, .ok [], .httpError "x", .stored⟩ (initBreaker 5 60)
        "Nowhere").result =
      .error (.weatherServiceError "City 'Nowhere' not found") ∧
    (get_weather ⟨5, .missing, .ok [(1, 2)], .httpError "x", .stored⟩ ⟨5, 60, .opened, 5, 4⟩
        "Paris").result =
      .error (.weatherServiceError
        "Weather service temporarily unavailable (circuit breaker open)") ∧
    errClass (.weatherServiceError "City 'Nowhere' not found") =
      errClass (.weatherServiceError
        "Weather service temporarily unavailable (circuit breaker open)") := by
  refine ⟨by decide, by decide, rfl⟩

/-- C3 amended: zero geocoding results yield a `WeatherServiceError` (the same
exception class as upstream unavailability); the two cases are distinguished by
message text — the route maps a message containing "not found" to HTTP 400 and
any other `WeatherServiceError` message to HTTP 503. -/
theorem claim_C3 (env : LookupEnv) (b : Breaker) (city : String)
    (h1 : cacheGet env.cacheGetResp = none) (h2 : env.geoResp = .ok []) :
    (get_weather env b city).result =
      .error (.weatherServiceError ("City '" ++ city ++ "' not found")) ∧
    errClass (.weatherServiceError ("City '" ++ city ++ "' not found")) =
      errClass (.weatherServiceError
        "Weather service temporarily unavailable (circuit breaker open)") ∧
    route_get_weather ⟨0, .missing, .ok [], .httpError "x", .stored⟩ (initBreaker 5 60)
        "Nowhere" =
      (.httpError 400 "City 'Nowhere' not found", initBreaker 5 60,
       [.cacheGetCall, .geoCall]) ∧
    route_get_weather ⟨5, .missing, .ok [(1, 2)], .httpError "x", .stored⟩
        ⟨5, 60, .opened, 5, 4⟩ "Paris" =
      (.httpError 503 "Weather service temporarily unavailable (circuit breaker open)",
       ⟨5, 60, .opened, 5, 4⟩, [.cacheGetCall, .geoCall]) := by
  refine ⟨?_, rfl, by decide, by decide⟩
  rw [get_weather_notFound env b city h1 h2]

theorem claim_C3_witness :
    (get_weather ⟨0, .missing, .ok [], .httpError "x", .stored⟩ (initBreaker 5 60)
        "Nowhere").result =
      .error (.weatherServiceError "City 'Nowhere' not found") :=
  (claim_C3 ⟨0, .missing, .ok [], .httpError "x", .stored⟩ (initBreaker 5 60)
    "Nowhere" rfl rfl).1

/-- C4: cache failures are fully absorbed — a backend error, a disconnected
client or a malformed payload make `CacheService.get` return `none` (never
raise); `CacheService.set` returns a success boolean; and a failed cache write
does not fail `get_weather`: the freshly fetched record (`cached=false`) is
returned exactly as it would be had the write succeeded. -/
theorem claim_C4 :
    (∀ gr : CacheGetResp,
      gr = .notConnected ∨ gr = .backendError ∨ gr = .malformed → cacheGet gr = none) ∧
    (cacheSet .notConnected = false ∧ cacheSet .backendError = false ∧
      cacheSet .stored = true) ∧
    (∀ (env : LookupEnv) (b : Breaker) (city : String) (c : ℚ × ℚ)
        (rest : List (ℚ × ℚ)) (p : WeatherPayload),
      cacheGet env.cacheGetResp = none → env.geoResp = .ok (c :: rest) →
      env.weatherResp = .ok p → b.state = .closed →
      cacheSet env.cacheSetResp = false →
      (get_weather env b city).result = .ok (freshRecord city p) ∧
      (freshRecord city p).cached = false ∧
      (get_weather { env with cacheSetResp := .stored } b city).result =
        .ok (freshRecord city p)) := by
  refine ⟨?_, ⟨rfl, rfl, rfl⟩, ?_⟩
  · rintro gr (rfl | rfl | rfl) <;> rfl
  · intro env b city c rest p h1 h2 hp hb _
    refine ⟨?_, rfl, ?_⟩
    · rw [get_weather_fresh env b city c rest p h1 h2 hp hb]
    · have hfr := get_weather_fresh { env with cacheSetResp := CacheSetResp.stored }
        b city c rest p h1 h2 hp hb
      rw [hfr]

theorem claim_C4_witness :
    cacheGet .backendError = none ∧
    (get_weather
        ⟨0, .missing, .ok [(1, 2)], .ok ⟨some ⟨some (31/2), some (123/10), some 1⟩⟩,
         .backendError⟩
        (initBreaker 5 60) "Paris").result =
      .ok (freshRecord "Paris" ⟨some ⟨some (31/2), some (123/10), some 1⟩⟩) :=
  ⟨claim_C4.1 _ (Or.inr (Or.inl rfl)),
   (claim_C4.2.2
      ⟨0, .missing, .ok [(1, 2)], .ok ⟨some ⟨some (31/2), some (123/10), some 1⟩⟩,
       .backendError⟩
      (initBreaker 5 60) "Paris" (1, 2) []
      ⟨some ⟨some (31/2), some (123/10), some 1⟩⟩ rfl rfl rfl rfl rfl).1⟩

/-- C10: a successful weather response never fails `get_weather` because of an
incomplete payload: for ANY payload, a record is returned with `cached=false`
and written to the cache; if the `current_weather` object is absent the record
is `⟨city, 0, 0, 0, false⟩`, and if the object is present each absent field
defaults (temperature `0`, wind speed `0`, weather code `0`) while each present
field keeps its payload value. -/
theorem claim_C10 (env : LookupEnv) (b : Breaker) (city : String)
    (c : ℚ × ℚ) (rest : List (ℚ × ℚ)) (p : WeatherPayload)
    (hp : env.weatherResp = .ok p)
    (h1 : cacheGet env.cacheGetResp = none) (h2 : env.geoResp = .ok (c :: rest))
    (hb : b.state = .closed) :
    ∃ r : WeatherData,
      (get_weather env b city).result = .ok r ∧
      r.city = city ∧ r.cached = false ∧
      (p.current_weather = none → r = ⟨city, 0, 0, 0, false⟩) ∧
      (∀ cw : CurrentWeather, p.current_weather = some cw →
        (cw.temperature = none → r.temperature = 0) ∧
        (∀ q : ℚ, cw.temperature = some q → r.temperature = q) ∧
        (cw.windspeed = none → r.wind_speed = 0) ∧
        (∀ q : ℚ, cw.windspeed = some q → r.wind_speed = q) ∧
        (cw.weathercode = none → r.weather_code = 0) ∧
        (∀ q : Int, cw.weathercode = some q → r.weather_code = q)) ∧
      NetEvent.cacheSetCall ∈ (get_weather env b city).events := by
  rw [get_weather_fresh env b city c rest p h1 h2 hp hb]
  refine ⟨freshRecord city p, rfl, rfl, rfl, ?_, ?_, by simp⟩
  · intro h
    simp [freshRecord, payloadCurrent, h]
  · intro cw hcw
    refine ⟨fun hq => ?_, fun q hq => ?_, fun hq => ?_, fun q hq => ?_,
      fun hq => ?_, fun q hq => ?_⟩ <;>
      simp [freshRecord, payloadCurrent, hcw, hq]

theorem claim_C10_witness :
    ∃ r : WeatherData,
      (get_weather ⟨0, .missing, .ok [(1, 2)],
          .ok ⟨some ⟨some (31/2), some (123/10), none⟩⟩, .stored⟩ (initBreaker 5 60)
        "Paris").result = .ok r ∧
      r.city = "Paris" ∧ r.cached = false ∧
      ((some (⟨some (31/2), some (123/10), none⟩ : CurrentWeather) :
          Option CurrentWeather) = none → r = ⟨"Paris", 0, 0, 0, false⟩) ∧
      (∀ cw : CurrentWeather,
        (some (⟨some (31/2), some (123/10), none⟩ : CurrentWeather) :
          Option CurrentWeather) = some cw →
        (cw.temperature = none → r.temperature = 0) ∧
        (∀ q : ℚ, cw.temperature = some q → r.temperature = q) ∧
        (cw.windspeed = none → r.wind_speed = 0) ∧
        (∀ q : ℚ, cw.windspeed = some q → r.wind_speed = q) ∧
        (cw.weathercode = none → r.weather_code = 0) ∧
        (∀ q : Int, cw.weathercode = some q → r.weather_code = q)) ∧
      NetEvent.cacheSetCall ∈
        (get_weather ⟨0, .missing, .ok [(1, 2)],
            .ok ⟨some ⟨some (31/2), some (123/10), none⟩⟩, .stored⟩ (initBreaker 5 60)
          "Paris").events :=
  claim_C10
    ⟨0, .missing, .ok [(1, 2)], .ok ⟨some ⟨some (31/2), some (123/10), none⟩⟩, .stored⟩
    (initBreaker 5 60) "Paris" (1, 2) [] ⟨some ⟨some (31/2), some (123/10), none⟩⟩
    rfl rfl rfl rfl

/-- C2: starting from a fresh breaker, `fail_max` consecutive failed
weather-fetch calls leave the breaker open; and while open, before
`reset_timeout` seconds have elapsed since opening, any `get_weather` call that
reaches the fetch step (cache miss, geocoding succeeded) fails immediately with
the unavailable `WeatherServiceError` without invoking the weather endpoint
(no `weatherCall` event) and without changing the breaker. -/
theorem claim_C2 :
    (∀ (m rt : Nat) (calls : List (Nat × String)), 1 ≤ m → calls.length = m →
      (failFold (initBreaker m rt) calls).state = .opened) ∧
    (∀ (env : LookupEnv) (b : Breaker) (city : String),
      b.state = .opened → env.now < b.openedAt + b.resetTimeout →
      cacheGet env.cacheGetResp = none →
      (∃ c rest, env.geoResp = .ok (c :: rest)) →
      get_weather env b city =
        ⟨.error (.weatherServiceError
          "Weather service temporarily unavailable (circuit breaker open)"),
         b, [.cacheGetCall, .geoCall]⟩) := by
  constructor
  · intro m rt calls hm hlen
    apply failFold_opens calls (initBreaker m rt) rfl
    · intro h0
      subst h0
      simp at hlen
      omega
    · simp [initBreaker, hlen]
  · intro env b city hb ht h1 h2
    exact get_weather_rejected env b city h1 h2 hb ht

theorem claim_C2_witness :
    (failFold (initBreaker 2 60) [(0, "timeout"), (1, "timeout")]).state = .opened ∧
    get_weather ⟨5, .missing, .ok [(1, 2)], .httpError "x", .stored⟩ ⟨2, 60, .opened, 2, 4⟩
        "Paris" =
      ⟨.error (.weatherServiceError
        "Weather service temporarily unavailable (circuit breaker open)"),
       ⟨2, 60, .opened, 2, 4⟩, [.cacheGetCall, .geoCall]⟩ :=
  ⟨claim_C2.1 2 60 [(0, "timeout"), (1, "timeout")] (by decide) rfl,
   claim_C2.2 ⟨5, .missing, .ok [(1, 2)], .httpError "x", .stored⟩ ⟨2, 60, .opened, 2, 4⟩
     "Paris" rfl (by decide) rfl ⟨(1, 2), [], rfl⟩⟩

/-- C8: the cache key is derived from the lowercased, trimmed city name, so any
two city strings equal after normalization share the same key; every key has
the fixed length 40 (`"weather:"` plus a 32-character digest); and the spec's
examples "Paris", " paris ", "PARIS" all map to one key. -/
theorem claim_C8 :
    (∀ c1 c2 : String, pyStrip (pyLower c1) = pyStrip (pyLower c2) →
      generate_cache_key c1 = generate_cache_key c2) ∧
    (∀ c : String, (generate_cache_key c).data.length = 40) ∧
    generate_cache_key "Paris" = generate_cache_key " paris " ∧
    generate_cache_key "Paris" = generate_cache_key "PARIS" := by
  refine ⟨?_, ?_, by decide, by decide⟩
  · intro c1 c2 h
    unfold generate_cache_key
    rw [h]
  · intro c
    have hd : (generate_cache_key c).data
        = "weather:".data ++ hexDigits ((pyStrip (pyLower c)).data.foldl
            (fun a ch => (a * 131 + ch.toNat) % 2 ^ 128) 5381) 32 := rfl
    rw [hd, List.length_append, hexDigits_length]
    decide

theorem claim_C8_witness :
    pyStrip (pyLower "Paris") = pyStrip (pyLower "PARIS") ∧
    generate_cache_key "Paris" = generate_cache_key "PARIS" :=
  ⟨by decide, claim_C8.1 "Paris" "PARIS" (by decide)⟩

/-- C6: with warming enabled and a non-empty explicit city list, `warm_cache`
returns counts with `success + failed` equal to the number of cities; each city
whose lookup raises (`WeatherServiceError` or anything else) is counted as a
failure without aborting the batch, and `warm_cache` itself is total (never
raises). -/
theorem claim_C6 (pop : List String) (l : List String)
    (lookup : String → Except PyErr WeatherData) (h : l ≠ []) :
    (warm_cache true pop (some l) lookup).success +
      (warm_cache true pop (some l) lookup).failed = l.length ∧
    (warm_cache true pop (some l) lookup).failed =
      l.countP (fun c => !(warm_city (lookup c))) := by
  have hne : l.isEmpty = false := by
    cases l with
    | nil => exact absurd rfl h
    | cons a t => rfl
  have hsum := count_true_add_countP_not (fun c => warm_city (lookup c)) l
  have hw : warm_cache true pop (some l) lookup =
      ⟨(l.map fun c => warm_city (lookup c)).count true,
       (l.map fun c => warm_city (lookup c)).length -
         (l.map fun c => warm_city (lookup c)).count true⟩ := by
    simp [warm_cache, hne]
  rw [hw]
  simp only [List.length_map]
  constructor <;> omega

theorem claim_C6_witness :
    (warm_cache true popular_cities (some ["Paris", "Atlantis", "London"])
        (fun c => if c = "Atlantis"
          then .error (.weatherServiceError "City 'Atlantis' not found")
          else .ok ⟨c, 1, 2, 3, false⟩)).success +
      (warm_cache true popular_cities (some ["Paris", "Atlantis", "London"])
        (fun c => if c = "Atlantis"
          then .error (.weatherServiceError "City 'Atlantis' not found")
          else .ok ⟨c, 1, 2, 3, false⟩)).failed = 3 ∧
    (warm_cache true popular_cities (some ["Paris", "Atlantis", "London"])
        (fun c => if c = "Atlantis"
          then .error (.weatherServiceError "City 'Atlantis' not found")
          else .ok ⟨c, 1, 2, 3, false⟩)).failed =
      (["Paris", "Atlantis", "London"].countP
        (fun c => !(warm_city ((fun c => if c = "Atlantis"
          then .error (.weatherServiceError "City 'Atlantis' not found")
          else .ok ⟨c, 1, 2, 3, false⟩) c)))) :=
  claim_C6 popular_cities ["Paris", "Atlantis", "London"]
    (fun c => if c = "Atlantis"
      then .error (.weatherServiceError "City 'Atlantis' not found")
      else .ok ⟨c, 1, 2, 3, false⟩) (by simp)

/-- C9: with warming enabled, an explicit empty city list is treated exactly
like no list (Python truthiness of `cities or settings.popular_cities`): the
run falls back to the configured default popular-cities list, warming its 12
cities rather than warming zero cities and returning `{0, 0}`. -/
theorem claim_C9 (lookup : String → Except PyErr WeatherData) :
    warm_cache true popular_cities (some []) lookup =
      warm_cache true popular_cities none lookup ∧
    (warm_cache true popular_cities (some []) lookup).success +
      (warm_cache true popular_cities (some []) lookup).failed = 12 := by
  constructor
  · rfl
  · have hsum := count_true_add_countP_not (fun c => warm_city (lookup c)) popular_cities
    have hw : warm_cache true popular_cities (some []) lookup =
        ⟨(popular_cities.map fun c => warm_city (lookup c)).count true,
         (popular_cities.map fun c => warm_city (lookup c)).length -
           (popular_cities.map fun c => warm_city (lookup c)).count true⟩ := by
      simp [warm_cache]
    have hlen : popular_cities.length = 12 := rfl
    rw [hw]
    simp only [List.length_map]
    omega

/-- C5: two store-level lookups for the same normalized city name, the first a
cache miss with a successful fetch and write at time `t0`, the second at any
time `t1` within the TTL window, return identical
`(temperature, wind_speed, weather_code)` values — the serialized record
round-trips through the cache — with the first marked `cached=false` and the
second `cached=true`. -/
theorem claim_C5 (city1 city2 : String) (st0 : RedisStore) (b : Breaker)
    (ttl t0 t1 : Nat) (c : ℚ × ℚ) (rest : List (ℚ × ℚ)) (p : WeatherPayload)
    (g2 : GeoResp) (w2 : WeatherResp)
    (hb : b.state = .closed)
    (hmiss : redisGet st0 (generate_cache_key city1) t0 = .missing)
    (hnorm : pyStrip (pyLower city2) = pyStrip (pyLower city1))
    (httl : t1 < t0 + ttl) :
    ∃ r1 r2 : WeatherData,
      (get_weather_store ⟨t0, .ok (c :: rest), .ok p, true⟩ ttl st0 b city1).1.result =
        .ok r1 ∧
      (get_weather_store ⟨t1, g2, w2, true⟩ ttl
        (get_weather_store ⟨t0, .ok (c :: rest), .ok p, true⟩ ttl st0 b city1).2
        (get_weather_store ⟨t0, .ok (c :: rest), .ok p, true⟩ ttl st0 b city1).1.breaker
        city2).1.result = .ok r2 ∧
      r1.cached = false ∧ r2.cached = true ∧
      r1.temperature = r2.temperature ∧ r1.wind_speed = r2.wind_speed ∧
      r1.weather_code = r2.weather_code := by
  have h1 := store_fresh ⟨t0, .ok (c :: rest), .ok p, true⟩ ttl st0 b city1 c rest p
    rfl rfl hb rfl hmiss
  have hkey : generate_cache_key city2 = generate_cache_key city1 := by
    unfold generate_cache_key
    rw [hnorm]
  have hhit : redisGet
      ((generate_cache_key city1, storedOf (freshRecord city1 p), t0 + ttl) :: st0)
      (generate_cache_key city2) t1 = .hit (storedOf (freshRecord city1 p)) := by
    rw [hkey]
    unfold redisGet
    simp [List.lookup, httl]
  rw [h1]
  have h2 := store_hit ⟨t1, g2, w2, true⟩ ttl
    ((generate_cache_key city1, storedOf (freshRecord city1 p), t0 + ttl) :: st0)
    { b with state := .closed, failCount := 0 } city2
    (storedOf (freshRecord city1 p)) rfl hhit
  rw [h2]
  exact ⟨freshRecord city1 p,
    ⟨(storedOf (freshRecord city1 p)).city, (storedOf (freshRecord city1 p)).temperature,
     (storedOf (freshRecord city1 p)).wind_speed,
     (storedOf (freshRecord city1 p)).weather_code, true⟩,
    rfl, rfl, rfl, rfl, rfl, rfl, rfl⟩

theorem claim_C5_witness :
    ∃ r1 r2 : WeatherData,
      (get_weather_store
        ⟨0, .ok [(4885341/100000, 23488/10000)],
         .ok ⟨some ⟨some (31/2), some (123/10), some 1⟩⟩, true⟩ 300 [] (initBreaker 5 60)
        "Paris").1.result = .ok r1 ∧
      (get_weather_store ⟨100, .ok [], .httpError "down", true⟩ 300
        (get_weather_store
          ⟨0, .ok [(4885341/100000, 23488/10000)],
           .ok ⟨some ⟨some (31/2), some (123/10), some 1⟩⟩, true⟩ 300 [] (initBreaker 5 60)
          "Paris").2
        (get_weather_store
          ⟨0, .ok [(4885341/100000, 23488/10000)],
           .ok ⟨some ⟨some (31/2), some (123/10), some 1⟩⟩, true⟩ 300 [] (initBreaker 5 60)
          "Paris").1.breaker
        " paris ").1.result = .ok r2 ∧
      r1.cached = false ∧ r2.cached = true ∧
      r1.temperature = r2.temperature ∧ r1.wind_speed = r2.wind_speed ∧
      r1.weather_code = r2.weather_code :=
  claim_C5 "Paris" " paris " [] (initBreaker 5 60) 300 0 100
    (4885341/100000, 23488/10000) [] ⟨some ⟨some (31/2), some (123/10), some 1⟩⟩
    (.ok []) (.httpError "down") rfl rfl (by decide) (by decide)

end WeatherProxy
